import Mathlib

/-!
Shallow embedding of the daemon core of cbdynclusterd (src/daemon/daemon.go).

The embedding covers:
* the data model (`Node`, `Cluster`, `ActorContext`) from the spec's data model
  and the fields read in daemon.go;
* the expiry sweep `cleanupClusters` (daemon.go lines 194-229): listing, the
  expiry partition, the teardown fan-out and the drain loop;
* the startup gating of `startDaemon` (lines 246-270): meta-store open, docker
  connect, the macvlan0 check, and construction of the system ActorContext;
* the shutdown handshake and the reconciler loop (lines 272-368) as a labelled
  transition system `Step` over `DaemonState`, with an event trace.

External effects (the registry, docker, the wall clock, the channel-arrival
order of teardown results) enter as explicit parameters: `listResult` is the
outcome of getAllClusters, `now i` is the value returned by the i-th call to
time.Now() inside the sweep, and `recv i` is the i-th value received from the
result channel in the drain loop (drain order).
-/

namespace Daemon

/-- Node record (daemon.go uses ContainerID, Name, InitialServerVersion,
IPv4Address only for display). -/
structure Node where
  ContainerID : String
  Name : String
  InitialServerVersion : String
  IPv4Address : String
deriving DecidableEq

/-- Cluster record; `Timeout` is the absolute expiry instant, modelled as an
integer timestamp. `a` is before `b` iff `a < b` (Go `time.Time.Before`). -/
structure Cluster where
  ID : String
  Owner : String
  Creator : String
  Timeout : Int
  Nodes : List Node
deriving DecidableEq

/-- ActorContext: identity plus privilege, the data carried by NewContext
(the parent context carries no data modelled here). -/
structure ActorContext where
  Identity : String
  IsSystem : Bool
deriving DecidableEq

/-- NewContext(parent, identity, isSystem) — the parent only supplies
cancellation semantics, which carry no state in this model. -/
def NewContext (identity : String) (isSystem : Bool) : ActorContext :=
  { Identity := identity, IsSystem := isSystem }

/-- The system context created at daemon.go line 270:
`systemCtx = NewContext(context.Background(), "system", true)`. -/
def systemCtx : ActorContext := NewContext "system" true

/-- A docker network as seen by hasMacvlan0 (only the name is read). -/
structure Network where
  Name : String
deriving DecidableEq

/-- hasMacvlan0 (daemon.go lines 179-192), success path of NetworkList: scans
the network list for one named macvlan0. (A NetworkList error panics in the
source; the error path is outside the claims considered here.) -/
def hasMacvlan0 (networks : List Network) : Bool :=
  networks.any (fun n => n.Name == "macvlan0")

/-- The partition loop of cleanupClusters (daemon.go lines 202-207):
`for _, cluster := range clusters { if cluster.Timeout.Before(time.Now()) {
clustersToKill = append(clustersToKill, cluster.ID) } }`.
The first argument counts the calls to time.Now() made so far in this sweep:
the source reads the clock once per cluster, inside the loop. -/
def clustersToKillAux (now : Nat → Int) : Nat → List Cluster → List String
  | _, [] => []
  | i, c :: rest =>
    if c.Timeout < now i then c.ID :: clustersToKillAux now (i + 1) rest
    else clustersToKillAux now (i + 1) rest

/-- The `clustersToKill` list built by one sweep (time.Now() call counter
starts at 0 for the sweep). -/
def clustersToKill (clusters : List Cluster) (now : Nat → Int) : List String :=
  clustersToKillAux now 0 clusters

/-- One iteration of the error-tracking in the drain loop (daemon.go lines
220-222): `if err != nil && killError == nil { killError = err }`. -/
def drainStep {E : Type} (killError err : Option E) : Option E :=
  if err.isSome && killError.isNone then err else killError

/-- The drain loop of cleanupClusters (daemon.go lines 217-223):
`for range clustersToKill { err := <-signal; if err != nil && killError == nil
{ killError = err } }`. `i` counts receives done so far, `k` the iterations
remaining; `recv i` is the i-th value received from the channel. -/
def drainLoop {E : Type} (recv : Nat → Option E) : Nat → Nat → Option E → Option E
  | _, 0, killError => killError
  | i, k + 1, killError => drainLoop recv (i + 1) k (drainStep killError (recv i))

/-- Observable trace of one call to cleanupClusters: the capacity the result
channel was created with (daemon.go line 209: `signal := make(chan error)`),
the candidate IDs for which teardown goroutines were launched, the number of
channel receives the drain loop performed, the ActorContext passed to
getAllClusters, the ActorContext passed to each killCluster, and the error
value the function returns (`none` = nil). -/
structure SweepTrace (E : Type) where
  chanCap : Nat
  launched : List String
  received : Nat
  listCtx : ActorContext
  killCtxs : List ActorContext
  result : Option E
deriving DecidableEq

/-- cleanupClusters (daemon.go lines 194-229). `listResult` is the outcome of
`getAllClusters(systemCtx)`; `now` gives the successive time.Now() values;
`recv` gives the successive values received from the `signal` channel, i.e.
the teardown results in drain order (each launched goroutine sends exactly one
value `killCluster(systemCtx, clusterID)` on the unbuffered channel). -/
def cleanupClusters {E : Type} (listResult : Except E (List Cluster)) (now : Nat → Int)
    (recv : Nat → Option E) : SweepTrace E :=
  match listResult with
  | Except.error err =>
      { chanCap := 0, launched := [], received := 0,
        listCtx := systemCtx, killCtxs := [], result := some err }
  | Except.ok clusters =>
      let toKill := clustersToKill clusters now
      { chanCap := 0, launched := toKill, received := toKill.length,
        listCtx := systemCtx,
        killCtxs := toKill.map (fun _ => systemCtx),
        result := drainLoop recv 0 toKill.length none }

/-- First non-none value among `recv i, recv (i+1), ..., recv (i+k-1)`
(specification-side description of what the drain loop tracks). -/
def firstSome {E : Type} (recv : Nat → Option E) : Nat → Nat → Option E
  | _, 0 => none
  | i, k + 1 =>
    match recv i with
    | some e => some e
    | none => firstSome recv (i + 1) k

/-- Outcome of the startup sequence of startDaemon (daemon.go lines 246-270):
each failed gate logs and returns before the HTTP listener is set up. -/
inductive StartupOutcome (E : Type) where
  | failedMetaOpen (err : E)
  | failedDockerConnect (err : E)
  | failedMacvlan
  | listening (ctx : ActorContext)
deriving DecidableEq

/-- The startup gating of startDaemon (daemon.go lines 246-270): openMeta,
then connectDocker, then the macvlan0 check; only if all three succeed is the
system ActorContext built and the daemon goes on to listen. `metaOpen` and
`dockerConnect` are the outcomes of the respective external calls
(`none` = nil error). -/
def startDaemon {E : Type} (metaOpen : Option E) (dockerConnect : Option E)
    (networks : List Network) : StartupOutcome E :=
  match metaOpen with
  | some err => StartupOutcome.failedMetaOpen err
  | none =>
    match dockerConnect with
    | some err => StartupOutcome.failedDockerConnect err
    | none =>
      if !hasMacvlan0 networks then StartupOutcome.failedMacvlan
      else StartupOutcome.listening (NewContext "system" true)

/-- The log line each startup failure emits before returning (daemon.go lines
250, 257, 265); `none` when startup proceeds to listening. -/
def startupLog {E : Type} : StartupOutcome E → Option String
  | StartupOutcome.failedMetaOpen _ => some "Failed to open meta db"
  | StartupOutcome.failedDockerConnect _ => some "Failed to connect to docker"
  | StartupOutcome.failedMacvlan => some "Failed to locate macvlan0 network on docker host"
  | StartupOutcome.listening _ => none

/-- Control location of the main goroutine of startDaemon after startup
(daemon.go lines 349-368): inside ListenAndServe; at the `shutdownSig <-`
send (line 356); at the `<-cleanupClosedSig` receive (line 359); at
`metaStore.Close()` (line 362); finished (line 368). -/
inductive MainPhase where
  | listening
  | sendShutdown
  | awaitAck
  | closeRegistry
  | finished
deriving DecidableEq

/-- Control location of the reconciler goroutine (daemon.go lines 276-290):
blocked in the select at the top of the loop; inside cleanupClusters with some
amount of work pending; about to send on cleanupClosedSig; returned. -/
inductive ReconPhase where
  | wait
  | sweeping (pending : Nat)
  | acking
  | done
deriving DecidableEq

/-- Observable events of a daemon run. `listenerClosed fail` records
ListenAndServe returning (fail = true when it returned an immediate error
rather than being closed by the signal watcher). -/
inductive Event where
  | listenerClosed (listenFailed : Bool)
  | sweepStart
  | sweepEnd
  | shutdownRecv
  | ackRecv
  | registryClosed
deriving DecidableEq

/-- Global state of the daemon after startup: the two goroutines' control
locations, the system context global, and the event trace so far. -/
structure DaemonState where
  main : MainPhase
  recon : ReconPhase
  ctx : ActorContext
  events : List Event
deriving DecidableEq

/-- State right after startup succeeded (daemon.go line 270 has run, the
reconciler goroutine of line 276 is at its select, ListenAndServe is about to
run). -/
def initState : DaemonState :=
  { main := MainPhase.listening, recon := ReconPhase.wait,
    ctx := NewContext "system" true, events := [] }

/-- Interleaving semantics of the daemon after startup (daemon.go lines
272-368). `shutdownSig` and `cleanupClosedSig` are unbuffered, so each
send/receive pair is one rendezvous step requiring both goroutines at the
matching locations. The reconciler observes the shutdown request only in the
select at the top of its loop; a sweep (`sweeping k`) must run down to 0
pending drain iterations before the loop returns to the select. -/
inductive Step : DaemonState → DaemonState → Prop where
  | listenReturn (s : DaemonState) (fail : Bool) (h : s.main = MainPhase.listening) :
      Step s { s with main := MainPhase.sendShutdown,
                      events := s.events ++ [Event.listenerClosed fail] }
  | timerFire (s : DaemonState) (k : Nat) (h : s.recon = ReconPhase.wait) :
      Step s { s with recon := ReconPhase.sweeping k,
                      events := s.events ++ [Event.sweepStart] }
  | sweepStep (s : DaemonState) (k : Nat) (h : s.recon = ReconPhase.sweeping (k + 1)) :
      Step s { s with recon := ReconPhase.sweeping k }
  | sweepDone (s : DaemonState) (h : s.recon = ReconPhase.sweeping 0) :
      Step s { s with recon := ReconPhase.wait, events := s.events ++ [Event.sweepEnd] }
  | shutdownSync (s : DaemonState) (hm : s.main = MainPhase.sendShutdown)
      (hr : s.recon = ReconPhase.wait) :
      Step s { s with main := MainPhase.awaitAck, recon := ReconPhase.acking,
                      events := s.events ++ [Event.shutdownRecv] }
  | ackSync (s : DaemonState) (hm : s.main = MainPhase.awaitAck)
      (hr : s.recon = ReconPhase.acking) :
      Step s { s with main := MainPhase.closeRegistry, recon := ReconPhase.done,
                      events := s.events ++ [Event.ackRecv] }
  | closeMeta (s : DaemonState) (h : s.main = MainPhase.closeRegistry) :
      Step s { s with main := MainPhase.finished,
                      events := s.events ++ [Event.registryClosed] }

/-- States reachable from the post-startup state. -/
inductive Reach : DaemonState → Prop where
  | init : Reach initState
  | step {s t : DaemonState} (hs : Reach s) (hst : Step s t) : Reach t

/-- Events belonging to the shutdown handshake. -/
def isShutdownEvent : Event → Bool
  | Event.listenerClosed _ => true
  | Event.shutdownRecv => true
  | Event.ackRecv => true
  | Event.registryClosed => true
  | _ => false

/-- Events marking sweep-cycle boundaries. -/
def isSweepEvent : Event → Bool
  | Event.sweepStart => true
  | Event.sweepEnd => true
  | _ => false

/-- The full shutdown handshake, in the order the code performs it. -/
def shutdownSeq (fail : Bool) : List Event :=
  [Event.listenerClosed fail, Event.shutdownRecv, Event.ackRecv, Event.registryClosed]

/-- How many shutdown-handshake events have happened when the main goroutine
is at a given location. -/
def mainStageCount : MainPhase → Nat
  | MainPhase.listening => 0
  | MainPhase.sendShutdown => 1
  | MainPhase.awaitAck => 2
  | MainPhase.closeRegistry => 3
  | MainPhase.finished => 4

/-- The sweep-event trace of n completed sweep cycles. -/
def fullSweeps : Nat → List Event
  | 0 => []
  | n + 1 => fullSweeps n ++ [Event.sweepStart, Event.sweepEnd]

/-- The pending sweep-event suffix for a reconciler location: an unmatched
sweepStart exactly when a sweep is in progress. -/
def sweepMark : ReconPhase → List Event
  | ReconPhase.sweeping _ => [Event.sweepStart]
  | _ => []

/-- Inductive invariant of the transition system: the system context is never
replaced; the shutdown events form exactly the stage-determined prefix of the
handshake; the sweep events are a balanced sequence of completed sweeps plus
an unmatched sweepStart exactly while a sweep runs. -/
def Inv (s : DaemonState) : Prop :=
  s.ctx = systemCtx
  ∧ (∃ fail, s.events.filter isShutdownEvent = (shutdownSeq fail).take (mainStageCount s.main))
  ∧ (∃ n, s.events.filter isSweepEvent = fullSweeps n ++ sweepMark s.recon)

/-- Final state of a run with one sweep followed by a signal-initiated
shutdown. -/
def normalFinal : DaemonState :=
  { main := MainPhase.finished, recon := ReconPhase.done, ctx := NewContext "system" true,
    events := [Event.sweepStart, Event.sweepEnd, Event.listenerClosed false,
               Event.shutdownRecv, Event.ackRecv, Event.registryClosed] }

/-- Final state of a run in which ListenAndServe failed immediately. -/
def failFinal : DaemonState :=
  { main := MainPhase.finished, recon := ReconPhase.done, ctx := NewContext "system" true,
    events := [Event.listenerClosed true, Event.shutdownRecv, Event.ackRecv,
               Event.registryClosed] }

/-- Concrete clusters used in counterexamples and witnesses. -/
def exClusterA : Cluster := { ID := "a", Owner := "o", Creator := "o", Timeout := 5, Nodes := [] }

def exClusterB : Cluster := { ID := "b", Owner := "o", Creator := "o", Timeout := 10, Nodes := [] }

/-- A monotone clock trace that advances between the two reads of a sweep. -/
def exNow : Nat → Int := fun i => if i = 0 then 3 else 20

/-- A drain-order arrival trace: first result nil, all later ones an error. -/
def exRecv : Nat → Option String := fun i => if i = 0 then none else some "boom"

/-! ### Drain-loop lemmas -/

theorem drainStep_none {E : Type} (x : Option E) : drainStep none x = x := by
  cases x <;> rfl

theorem drainStep_keep {E : Type} (e : E) (x : Option E) : drainStep (some e) x = some e := by
  cases x <;> rfl

theorem drainLoop_keep {E : Type} (recv : Nat → Option E) :
    ∀ (k i : Nat) (e : E), drainLoop recv i k (some e) = some e := by
  intro k
  induction k with
  | zero => intro i e; rfl
  | succ n ih =>
    intro i e
    rw [drainLoop, drainStep_keep]
    exact ih (i + 1) e

theorem drainLoop_eq_firstSome {E : Type} (recv : Nat → Option E) :
    ∀ (k i : Nat), drainLoop recv i k none = firstSome recv i k := by
  intro k
  induction k with
  | zero => intro i; rfl
  | succ n ih =>
    intro i
    rw [drainLoop, drainStep_none]
    cases h : recv i with
    | none => rw [firstSome, h]; exact ih (i + 1)
    | some e => rw [firstSome, h]; exact drainLoop_keep recv n (i + 1) e

theorem firstSome_shift {E : Type} :
    ∀ (k : Nat) (recv : Nat → Option E) (i : Nat),
      firstSome recv (i + 1) k = firstSome (fun j => recv (j + 1)) i k := by
  intro k
  induction k with
  | zero => intro recv i; rfl
  | succ n ih =>
    intro recv i
    rw [firstSome, firstSome]
    cases h : recv (i + 1) with
    | none => exact ih recv (i + 1)
    | some e => rfl

theorem findSome?_range {E : Type} :
    ∀ (K : Nat) (recv : Nat → Option E),
      ((List.range K).map recv).findSome? id = firstSome recv 0 K := by
  intro K
  induction K with
  | zero => intro recv; rfl
  | succ n ih =>
    intro recv
    rw [List.range_succ_eq_map]
    simp only [List.map_cons, List.map_map]
    cases h : recv 0 with
    | some e => simp [List.findSome?_cons, h, firstSome]
    | none =>
      rw [firstSome, h, firstSome_shift]
      simp only [List.findSome?_cons, h, id]
      exact ih (fun j => recv (j + 1))

theorem findSome?_first_some {E : Type} :
    ∀ (pre : List (Option E)), (∀ x ∈ pre, x = none) → ∀ (e : E) (post : List (Option E)),
      (pre ++ some e :: post).findSome? id = some e := by
  intro pre
  induction pre with
  | nil => intro _ e post; simp [List.findSome?_cons]
  | cons x xs ih =>
    intro h e post
    have hx : x = none := h x (List.mem_cons_self x xs)
    subst hx
    simp only [List.cons_append, List.findSome?_cons, id]
    exact ih (fun y hy => h y (List.mem_cons_of_mem _ hy)) e post

/-! ### Partition lemmas -/

theorem clustersToKillAux_nil_of_alive (now : Nat → Int) :
    ∀ (l : List Cluster), (∀ c ∈ l, ∀ i, ¬ c.Timeout < now i) →
      ∀ i0, clustersToKillAux now i0 l = [] := by
  intro l
  induction l with
  | nil => intro _ i0; rfl
  | cons c rest ih =>
    intro h i0
    rw [clustersToKillAux, if_neg (h c (List.mem_cons_self c rest) i0)]
    exact ih (fun d hd i => h d (List.mem_cons_of_mem _ hd) i) (i0 + 1)

theorem clustersToKillAux_const (now : Nat → Int) (t : Int) (hsingle : ∀ i, now i = t) :
    ∀ (l : List Cluster) (i0 : Nat),
      clustersToKillAux now i0 l
        = (l.filter (fun c => decide (c.Timeout < t))).map Cluster.ID := by
  intro l
  induction l with
  | nil => intro i0; rfl
  | cons c rest ih =>
    intro i0
    rw [clustersToKillAux, hsingle i0]
    by_cases h : c.Timeout < t
    · rw [if_pos h]
      simp [List.filter_cons, h, ih (i0 + 1)]
    · rw [if_neg h]
      simp [List.filter_cons, h, ih (i0 + 1)]

theorem clustersToKillAux_sound_at (now : Nat → Int) :
    ∀ (l : List Cluster) (i0 : Nat) (x : String), x ∈ clustersToKillAux now i0 l →
      ∃ j, ∃ hj : j < l.length,
        (l.get ⟨j, hj⟩).ID = x ∧ (l.get ⟨j, hj⟩).Timeout < now (i0 + j) := by
  intro l
  induction l with
  | nil => intro i0 x hx; exact absurd hx (List.not_mem_nil x)
  | cons c rest ih =>
    intro i0 x hx
    rw [clustersToKillAux] at hx
    by_cases h : c.Timeout < now i0
    · rw [if_pos h] at hx
      rcases List.mem_cons.mp hx with h1 | h2
      · refine ⟨0, Nat.succ_pos rest.length, h1.symm, ?_⟩
        rw [Nat.add_zero]
        exact h
      · obtain ⟨j, hj, hid, hlt⟩ := ih (i0 + 1) x h2
        refine ⟨j + 1, Nat.succ_lt_succ hj, hid, ?_⟩
        have hidx : i0 + (j + 1) = (i0 + 1) + j := by omega
        rw [hidx]
        exact hlt
    · rw [if_neg h] at hx
      obtain ⟨j, hj, hid, hlt⟩ := ih (i0 + 1) x hx
      refine ⟨j + 1, Nat.succ_lt_succ hj, hid, ?_⟩
      have hidx : i0 + (j + 1) = (i0 + 1) + j := by omega
      rw [hidx]
      exact hlt

/-! ### Transition-system invariant -/

theorem inv_initState : Inv initState :=
  ⟨rfl, ⟨true, rfl⟩, ⟨0, rfl⟩⟩

theorem inv_step {s t : DaemonState} (hst : Step s t) (hI : Inv s) : Inv t := by
  obtain ⟨hctx, ⟨fail, hsh⟩, ⟨n, hsw⟩⟩ := hI
  cases hst with
  | listenReturn fail2 h =>
    rw [h] at hsh
    simp only [mainStageCount, List.take_zero] at hsh
    refine ⟨hctx, ⟨fail2, ?_⟩, ⟨n, ?_⟩⟩
    · simp [List.filter_append, hsh, isShutdownEvent, shutdownSeq, mainStageCount]
    · simp [List.filter_append, hsw, isSweepEvent]
  | timerFire k h =>
    rw [h] at hsw
    simp only [sweepMark, List.append_nil] at hsw
    refine ⟨hctx, ⟨fail, ?_⟩, ⟨n, ?_⟩⟩
    · simp [List.filter_append, hsh, isShutdownEvent]
    · simp [List.filter_append, hsw, isSweepEvent, sweepMark]
  | sweepStep k h =>
    refine ⟨hctx, ⟨fail, hsh⟩, ⟨n, ?_⟩⟩
    rw [h] at hsw
    exact hsw
  | sweepDone h =>
    rw [h] at hsw
    refine ⟨hctx, ⟨fail, ?_⟩, ⟨n + 1, ?_⟩⟩
    · simp [List.filter_append, hsh, isShutdownEvent]
    · simp [List.filter_append, hsw, isSweepEvent, sweepMark, fullSweeps, List.append_assoc]
  | shutdownSync hm hr =>
    rw [hm] at hsh
    rw [hr] at hsw
    simp only [sweepMark, List.append_nil] at hsw
    refine ⟨hctx, ⟨fail, ?_⟩, ⟨n, ?_⟩⟩
    · simp [List.filter_append, hsh, isShutdownEvent, shutdownSeq, mainStageCount]
    · simp [List.filter_append, hsw, isSweepEvent, sweepMark]
  | ackSync hm hr =>
    rw [hm] at hsh
    rw [hr] at hsw
    simp only [sweepMark, List.append_nil] at hsw
    refine ⟨hctx, ⟨fail, ?_⟩, ⟨n, ?_⟩⟩
    · simp [List.filter_append, hsh, isShutdownEvent, shutdownSeq, mainStageCount]
    · simp [List.filter_append, hsw, isSweepEvent, sweepMark]
  | closeMeta h =>
    rw [h] at hsh
    refine ⟨hctx, ⟨fail, ?_⟩, ⟨n, ?_⟩⟩
    · simp [List.filter_append, hsh, isShutdownEvent, shutdownSeq, mainStageCount]
    · simp [List.filter_append, hsw, isSweepEvent]

theorem reach_inv {s : DaemonState} (h : Reach s) : Inv s := by
  induction h with
  | init => exact inv_initState
  | step _ hst ih => exact inv_step hst ih

theorem reach_normalFinal : Reach normalFinal := by
  have h0 : Reach initState := Reach.init
  have h1 := Reach.step h0 (Step.timerFire initState 0 rfl)
  have h2 := Reach.step h1 (Step.sweepDone _ rfl)
  have h3 := Reach.step h2 (Step.listenReturn _ false rfl)
  have h4 := Reach.step h3 (Step.shutdownSync _ rfl rfl)
  have h5 := Reach.step h4 (Step.ackSync _ rfl rfl)
  exact Reach.step h5 (Step.closeMeta _ rfl)

theorem reach_failFinal : Reach failFinal := by
  have h0 : Reach initState := Reach.init
  have h1 := Reach.step h0 (Step.listenReturn initState true rfl)
  have h2 := Reach.step h1 (Step.shutdownSync _ rfl rfl)
  have h3 := Reach.step h2 (Step.ackSync _ rfl rfl)
  exact Reach.step h3 (Step.closeMeta _ rfl)

/-! ### Claims -/

/-- C1: in a sweep whose listing succeeded, the drain loop performs exactly one
channel receive per launched teardown task before cleanupClusters returns, and
the returned error is the first non-nil result in drain order (nil when every
teardown succeeded); results drained after the first non-nil one do not change
the outcome. -/
theorem sweep_first_error_in_drain_order {E : Type} (clusters : List Cluster)
    (now : Nat → Int) (recv : Nat → Option E) :
    (cleanupClusters (Except.ok clusters) now recv).received
        = (cleanupClusters (Except.ok clusters) now recv).launched.length
  ∧ (cleanupClusters (Except.ok clusters) now recv).result
        = ((List.range (cleanupClusters (Except.ok clusters) now recv).received).map
            recv).findSome? id
  ∧ (∀ (pre : List (Option E)) (e : E) (post : List (Option E)),
      (List.range (cleanupClusters (Except.ok clusters) now recv).received).map recv
          = pre ++ some e :: post →
      (∀ x ∈ pre, x = none) →
      (cleanupClusters (Except.ok clusters) now recv).result = some e) := by
  have hres : drainLoop recv 0 (clustersToKill clusters now).length none
      = ((List.range (clustersToKill clusters now).length).map recv).findSome? id := by
    rw [drainLoop_eq_firstSome, findSome?_range]
  refine ⟨rfl, hres, ?_⟩
  intro pre e post hsplit hnone
  have h2 : (cleanupClusters (Except.ok clusters) now recv).result
      = ((List.range (cleanupClusters (Except.ok clusters) now recv).received).map
          recv).findSome? id := hres
  rw [h2, hsplit]
  exact findSome?_first_some pre hnone e post

/-- C1 witness: two expired candidates, first drained result nil, second an
error; the sweep returns that error. -/
theorem sweep_first_error_in_drain_order_witness :
    (cleanupClusters (Except.ok [exClusterA, exClusterB]) (fun _ => (100 : Int))
        exRecv).result = some "boom" :=
  (sweep_first_error_in_drain_order [exClusterA, exClusterB] (fun _ => (100 : Int))
      exRecv).2.2 [none] "boom" [] (by decide) (by decide)

/-- C2 counterexample: the code reads time.Now() once per cluster inside the
partition loop, not once per sweep. With clusters of Timeout 5 and 10 and the
monotone clock trace 3, 20, the sweep selects exactly the cluster with
Timeout 10, a set that no single sampled instant t can produce. -/
theorem no_single_sample_partition :
    ¬ ∃ t : Int, ∀ c ∈ [exClusterA, exClusterB],
        (c.ID ∈ clustersToKill [exClusterA, exClusterB] exNow ↔ c.Timeout < t) := by
  rintro ⟨t, h⟩
  have ha := h exClusterA (by decide)
  have hb := h exClusterB (by decide)
  have hka : ¬ ("a" ∈ clustersToKill [exClusterA, exClusterB] exNow) := by decide
  have hkb : "b" ∈ clustersToKill [exClusterA, exClusterB] exNow := by decide
  have h5 : ¬ ((5 : Int) < t) := fun hlt => hka (ha.mpr hlt)
  have h10 : (10 : Int) < t := hb.mp hkb
  omega

/-- C2 amended: each cluster's Timeout is compared against the current-time
sample taken at that cluster's own iteration of the partition loop. In general
(for any clock trace), every selected ID belongs to the cluster at some
position j of the listing whose Timeout is strictly before now j, the sample
taken at its own iteration; and when all samples of the sweep are equal to t
(the clock does not advance during the partition), the selected set is exactly
the clusters with Timeout strictly before t. -/
theorem partition_per_iteration_sample (clusters : List Cluster) (now : Nat → Int) :
    (∀ x ∈ clustersToKill clusters now,
        ∃ j, ∃ hj : j < clusters.length,
          (clusters.get ⟨j, hj⟩).ID = x ∧ (clusters.get ⟨j, hj⟩).Timeout < now j)
  ∧ (∀ t : Int, (∀ i, now i = t) →
        clustersToKill clusters now
          = (clusters.filter (fun c => decide (c.Timeout < t))).map Cluster.ID) := by
  constructor
  · intro x hx
    obtain ⟨j, hj, hid, hlt⟩ := clustersToKillAux_sound_at now clusters 0 x hx
    refine ⟨j, hj, hid, ?_⟩
    rw [Nat.zero_add] at hlt
    exact hlt
  · intro t hsingle
    exact clustersToKillAux_const now t hsingle clusters 0

/-- C2 amended witness: under the non-constant clock trace 3, 20 the selected
ID b is accounted for by the cluster at position 1 whose Timeout 10 is before
its own iteration's sample 20; and with a constant clock at 7, exactly the
cluster with Timeout 5 is selected. -/
theorem partition_per_iteration_sample_witness :
    (∃ j, ∃ hj : j < ([exClusterA, exClusterB] : List Cluster).length,
        (([exClusterA, exClusterB] : List Cluster).get ⟨j, hj⟩).ID = "b"
        ∧ (([exClusterA, exClusterB] : List Cluster).get ⟨j, hj⟩).Timeout < exNow j)
  ∧ clustersToKill [exClusterA, exClusterB] (fun _ => (7 : Int))
      = ([exClusterA, exClusterB].filter
          (fun c => decide (c.Timeout < (7 : Int)))).map Cluster.ID :=
  ⟨(partition_per_iteration_sample [exClusterA, exClusterB] exNow).1 "b" (by decide),
   (partition_per_iteration_sample [exClusterA, exClusterB] (fun _ => (7 : Int))).2 7
      (fun _ => rfl)⟩

/-- C3 counterexample: daemon.go line 209 creates the result channel with
make(chan error), i.e. capacity 0, so in a sweep with one expired candidate
the channel capacity is not equal to the candidate count. -/
theorem result_channel_unbuffered :
    (cleanupClusters (E := String) (Except.ok [exClusterA]) (fun _ => (100 : Int))
        (fun _ => none)).launched.length = 1
  ∧ (cleanupClusters (E := String) (Except.ok [exClusterA]) (fun _ => (100 : Int))
        (fun _ => none)).chanCap = 0
  ∧ (cleanupClusters (E := String) (Except.ok [exClusterA]) (fun _ => (100 : Int))
        (fun _ => none)).chanCap
      ≠ (cleanupClusters (E := String) (Except.ok [exClusterA]) (fun _ => (100 : Int))
        (fun _ => none)).launched.length := by
  refine ⟨by decide, rfl, by decide⟩

/-- C3 amended: the shared result channel is created unbuffered (capacity 0) in
every sweep; a sweep with zero candidates performs no sends and no receives on
it and returns success immediately, so it still never blocks on the channel. -/
theorem result_channel_capacity_zero {E : Type} (lr : Except E (List Cluster))
    (now : Nat → Int) (recv : Nat → Option E) :
    (cleanupClusters lr now recv).chanCap = 0
  ∧ (∀ clusters, lr = Except.ok clusters → clustersToKill clusters now = [] →
      (cleanupClusters lr now recv).launched = []
      ∧ (cleanupClusters lr now recv).received = 0
      ∧ (cleanupClusters lr now recv).result = none) := by
  constructor
  · cases lr <;> rfl
  · intro clusters hlr hk
    subst hlr
    refine ⟨?_, ?_, ?_⟩ <;> simp [cleanupClusters, hk, drainLoop]

/-- C3 amended witness: zero candidates, zero receives, nil outcome. -/
theorem result_channel_capacity_zero_witness :
    (cleanupClusters (E := String) (Except.ok []) (fun _ => (0 : Int))
        (fun _ => none)).received = 0
  ∧ (cleanupClusters (E := String) (Except.ok []) (fun _ => (0 : Int))
        (fun _ => none)).result = none :=
  ⟨((result_channel_capacity_zero (Except.ok []) (fun _ => (0 : Int))
      (fun _ => none)).2 [] rfl rfl).2.1,
   ((result_channel_capacity_zero (Except.ok []) (fun _ => (0 : Int))
      (fun _ => none)).2 [] rfl rfl).2.2⟩

/-- C4: in every reachable state of the post-startup daemon, the shutdown
handshake events form a left-to-right stage of the sequence listener-closed,
shutdown-received, ack-received, registry-closed; and whenever the registry has
been closed, the full sequence has occurred in exactly that order — so the
registry is never closed before the reconciler's acknowledgement, which in turn
never precedes the listener closing. -/
theorem shutdown_order_invariant :
    (∀ s : DaemonState, Reach s →
      ∃ fail k, s.events.filter isShutdownEvent = (shutdownSeq fail).take k)
  ∧ (∀ s : DaemonState, Reach s → Event.registryClosed ∈ s.events →
      ∃ fail, s.events.filter isShutdownEvent = shutdownSeq fail) := by
  constructor
  · intro s hs
    obtain ⟨_, ⟨fail, hsh⟩, _⟩ := reach_inv hs
    exact ⟨fail, mainStageCount s.main, hsh⟩
  · intro s hs hmem
    obtain ⟨_, ⟨fail, hsh⟩, _⟩ := reach_inv hs
    have hmemf : Event.registryClosed ∈ s.events.filter isShutdownEvent :=
      List.mem_filter.mpr ⟨hmem, rfl⟩
    rw [hsh] at hmemf
    refine ⟨fail, ?_⟩
    cases hm : s.main with
    | finished => rw [hm] at hsh; exact hsh
    | listening => rw [hm] at hmemf; simp [mainStageCount, shutdownSeq] at hmemf
    | sendShutdown => rw [hm] at hmemf; simp [mainStageCount, shutdownSeq] at hmemf
    | awaitAck => rw [hm] at hmemf; simp [mainStageCount, shutdownSeq] at hmemf
    | closeRegistry => rw [hm] at hmemf; simp [mainStageCount, shutdownSeq] at hmemf

/-- C4 witness: a completed run with one sweep shows the full ordered
handshake. -/
theorem shutdown_order_invariant_witness :
    ∃ fail, normalFinal.events.filter isShutdownEvent = shutdownSeq fail :=
  shutdown_order_invariant.2 normalFinal reach_normalFinal (by decide)

/-- C5: sweep cycles never overlap — in every reachable state, the sweep events
are a balanced sequence of completed start/end pairs plus at most one trailing
unmatched start (the reconciler is a single sequential loop that returns to its
wait only after the previous sweep's drain completed); the shutdown request is
only received in a step taken from the reconciler's wait location, between
sweeps; and once the reconciler is acknowledging or has exited, no sweep is in
progress (the sweep-event trace is fully balanced). -/
theorem sweeps_sequential :
    (∀ s : DaemonState, Reach s →
      ∃ n, s.events.filter isSweepEvent = fullSweeps n ++ sweepMark s.recon)
  ∧ (∀ s t : DaemonState, Step s t → t.events = s.events ++ [Event.shutdownRecv] →
      s.recon = ReconPhase.wait)
  ∧ (∀ s : DaemonState, Reach s →
      s.recon = ReconPhase.acking ∨ s.recon = ReconPhase.done →
      ∃ n, s.events.filter isSweepEvent = fullSweeps n) := by
  refine ⟨?_, ?_, ?_⟩
  · intro s hs
    exact (reach_inv hs).2.2
  · intro s t hst heq
    cases hst with
    | listenReturn fail h => simp at heq
    | timerFire k h => simp at heq
    | sweepStep k h => simp at heq
    | sweepDone h => simp at heq
    | shutdownSync hm hr => exact hr
    | ackSync hm hr => simp at heq
    | closeMeta h => simp at heq
  · intro s hs hr
    obtain ⟨_, _, ⟨n, hsw⟩⟩ := reach_inv hs
    rcases hr with hr | hr <;> rw [hr] at hsw <;>
      simp only [sweepMark, List.append_nil] at hsw <;> exact ⟨n, hsw⟩

/-- C5 witness: at the end of a completed run, the sweep events are exactly the
balanced trace of one full sweep. -/
theorem sweeps_sequential_witness :
    ∃ n, normalFinal.events.filter isSweepEvent = fullSweeps n :=
  sweeps_sequential.2.2 normalFinal reach_normalFinal (Or.inr rfl)

/-- C6: when listing all clusters fails, cleanupClusters returns that listing
error at once: no cluster is partitioned into the kill list, no teardown task
is launched, no kill call is made, and no result is drained. -/
theorem list_failure_aborts_sweep {E : Type} (e : E) (now : Nat → Int)
    (recv : Nat → Option E) :
    cleanupClusters (Except.error e) now recv =
      { chanCap := 0, launched := [], received := 0,
        listCtx := systemCtx, killCtxs := [], result := some e } := rfl

/-- C7: each startup-fatal failure — meta store open failure, docker connect
failure, or a missing macvlan0 network — makes startDaemon abort at that gate;
the listener phase is reached exactly when all three gates pass, and a startup
log cause is emitted exactly when the listener never starts. -/
theorem startup_fatal_no_listener {E : Type} (metaOpen dockerConnect : Option E)
    (networks : List Network) :
    (∀ e, metaOpen = some e →
        startDaemon metaOpen dockerConnect networks = StartupOutcome.failedMetaOpen e)
  ∧ (∀ e, metaOpen = none → dockerConnect = some e →
        startDaemon metaOpen dockerConnect networks = StartupOutcome.failedDockerConnect e)
  ∧ (metaOpen = none → dockerConnect = none → hasMacvlan0 networks = false →
        startDaemon metaOpen dockerConnect networks = StartupOutcome.failedMacvlan)
  ∧ ((∃ ctx, startDaemon metaOpen dockerConnect networks = StartupOutcome.listening ctx)
        ↔ metaOpen = none ∧ dockerConnect = none ∧ hasMacvlan0 networks = true)
  ∧ (startupLog (startDaemon metaOpen dockerConnect networks) = none
        ↔ ∃ ctx, startDaemon metaOpen dockerConnect networks
            = StartupOutcome.listening ctx) := by
  cases metaOpen with
  | some e0 => simp [startDaemon, startupLog]
  | none =>
    cases dockerConnect with
    | some e1 => simp [startDaemon, startupLog]
    | none =>
      cases hmac : hasMacvlan0 networks with
      | false => simp [startDaemon, startupLog, hmac]
      | true => simp [startDaemon, startupLog, hmac]

/-- C7 witness: a failing meta open aborts with that error and a present
macvlan0 network plus healthy gates yields no startup failure log. -/
theorem startup_fatal_no_listener_witness :
    startDaemon (E := String) (some "boom") none [] = StartupOutcome.failedMetaOpen "boom"
  ∧ startupLog (startDaemon (E := String) none none [{ Name := "macvlan0" }]) = none :=
  ⟨(startup_fatal_no_listener (some "boom") none []).1 "boom" rfl,
   (startup_fatal_no_listener (E := String) none none [{ Name := "macvlan0" }]).2.2.2.2.mpr
     ⟨NewContext "system" true, rfl⟩⟩

/-- C8: a sweep over an empty cluster list, or one in which no cluster's
Timeout is before any clock sample of the sweep, launches zero teardown tasks,
drains nothing, and returns nil. -/
theorem no_expired_sweep_success {E : Type} (clusters : List Cluster) (now : Nat → Int)
    (recv : Nat → Option E) (h : ∀ c ∈ clusters, ∀ i, ¬ c.Timeout < now i) :
    cleanupClusters (Except.ok clusters) now recv =
      { chanCap := 0, launched := [], received := 0,
        listCtx := systemCtx, killCtxs := [], result := none } := by
  have hk : clustersToKill clusters now = [] :=
    clustersToKillAux_nil_of_alive now clusters h 0
  simp [cleanupClusters, hk, drainLoop]

/-- C8 witness: the empty list and an all-alive one-cluster list both give the
zero-task successful sweep. -/
theorem no_expired_sweep_success_witness :
    cleanupClusters (E := String) (Except.ok []) (fun _ => (3 : Int)) (fun _ => none) =
      { chanCap := 0, launched := [], received := 0,
        listCtx := systemCtx, killCtxs := [], result := none }
  ∧ cleanupClusters (E := String) (Except.ok [exClusterB]) (fun _ => (3 : Int))
        (fun _ => none) =
      { chanCap := 0, launched := [], received := 0,
        listCtx := systemCtx, killCtxs := [], result := none } :=
  ⟨no_expired_sweep_success [] (fun _ => (3 : Int)) (fun _ => none)
      (by intro c hc i; exact absurd hc (List.not_mem_nil c)),
   no_expired_sweep_success [exClusterB] (fun _ => (3 : Int)) (fun _ => none)
      (by intro c hc i; rw [List.mem_singleton] at hc; subst hc
          exact (by decide : ¬ (10 : Int) < 3))⟩

/-- C9: the reconciler's context is the system-privileged ActorContext
(identity "system", isSystem true) built once by NewContext at daemon start; it
is in place before the reconciler loop starts, no reachable step of the daemon
ever replaces it, and every listing and every teardown of a sweep is made under
exactly that context. -/
theorem system_context_once :
    systemCtx = NewContext "system" true
  ∧ systemCtx.Identity = "system"
  ∧ systemCtx.IsSystem = true
  ∧ initState.ctx = systemCtx
  ∧ (∀ s : DaemonState, Reach s → s.ctx = systemCtx)
  ∧ (∀ (E : Type) (lr : Except E (List Cluster)) (now : Nat → Int)
        (recv : Nat → Option E),
      (cleanupClusters lr now recv).listCtx = systemCtx
      ∧ ∀ c ∈ (cleanupClusters lr now recv).killCtxs, c = systemCtx) := by
  refine ⟨rfl, rfl, rfl, rfl, ?_, ?_⟩
  · intro s hs
    exact (reach_inv hs).1
  · intro E lr now recv
    cases lr with
    | error e => exact ⟨rfl, fun c hc => absurd hc (List.not_mem_nil c)⟩
    | ok clusters =>
      refine ⟨rfl, ?_⟩
      intro c hc
      simp only [cleanupClusters, List.mem_map] at hc
      obtain ⟨a, _, ha⟩ := hc
      exact ha.symm

/-- C9 witness: a completed run still carries the original system context. -/
theorem system_context_once_witness : normalFinal.ctx = systemCtx :=
  system_context_once.2.2.2.2.1 normalFinal reach_normalFinal

/-- C10: a run in which ListenAndServe returns an immediate error still
performs the complete shutdown handshake — the reconciler is signalled,
acknowledged, and only then is the registry closed — reaching the finished
state exactly as a signal-initiated run does; and every finished run that began
with a listener failure shows the full ordered handshake. -/
theorem listen_error_still_shuts_down :
    Reach failFinal
  ∧ failFinal.main = MainPhase.finished
  ∧ failFinal.events = [Event.listenerClosed true, Event.shutdownRecv,
      Event.ackRecv, Event.registryClosed]
  ∧ (∀ s : DaemonState, Reach s → Event.listenerClosed true ∈ s.events →
      s.main = MainPhase.finished →
      s.events.filter isShutdownEvent = shutdownSeq true) := by
  refine ⟨reach_failFinal, rfl, rfl, ?_⟩
  intro s hs hmem hmain
  obtain ⟨_, ⟨fail, hsh⟩, _⟩ := reach_inv hs
  rw [hmain] at hsh
  have h4 : (shutdownSeq fail).take (mainStageCount MainPhase.finished)
      = shutdownSeq fail := rfl
  rw [h4] at hsh
  have hmemf : Event.listenerClosed true ∈ s.events.filter isShutdownEvent :=
    List.mem_filter.mpr ⟨hmem, rfl⟩
  rw [hsh] at hmemf
  cases fail with
  | true => exact hsh
  | false => simp [shutdownSeq] at hmemf

/-- C10 witness: the concrete failed-listener run ends with the full ordered
handshake. -/
theorem listen_error_still_shuts_down_witness :
    failFinal.events.filter isShutdownEvent = shutdownSeq true :=
  listen_error_still_shuts_down.2.2.2 failFinal
    listen_error_still_shuts_down.1 (by decide) rfl

end Daemon
